import Mathlib

/-!
Shallow embedding of the F1-Simulator lap-time predictor core
(the laptime_predictor sources features.py, utils.py, imputer.py, model.py
and config/settings.py), together with theorems settling
the specification claims about it.

Numeric lap/sector times are modelled as exact rationals; the values that
pandas produces by float division (which can be NaN or infinite) are
modelled by the `PVal` type below.  Tables are lists of rows in the frame's
row order; pandas group-wise operations are embedded as functions of the
whole table and a row position.
-/

namespace F1Sim

/-- A pandas float cell as produced by division: finite, `+inf`, `-inf`, or NaN. -/
inductive PVal where
  | nan
  | pinf
  | ninf
  | fin (q : ℚ)
deriving DecidableEq

/-- Pandas missing-value test `pd.isna`: only NaN is missing (infinities are not). -/
def PVal.isNA : PVal → Bool
  | .nan => true
  | _ => false

/-- numpy float division of two finite operands, as used by pandas column
division: `x / 0` is NaN for `x = 0` and a signed infinity otherwise;
a nonzero divisor gives the exact quotient.  It never raises. -/
def qdiv (a b : ℚ) : PVal :=
  if b = 0 then
    if a = 0 then .nan else if 0 < a then .pinf else .ninf
  else .fin (a / b)

/-- One cleaned lap record: the required columns after `clean_data`
(`REQUIRED_COLS` in `config/settings.py`), with `LapTime` coerced to float
(here an exact rational) and `TyreLife` to int. -/
structure Row where
  driver : String
  team : String
  event : String
  compound : String
  tyreLife : ℤ
  lapTime : ℚ
  sector1Time : ℚ
  sector2Time : ℚ
  sector3Time : ℚ
deriving DecidableEq, Inhabited

/-- A DataFrame of cleaned rows, in frame row order (positional index). -/
abbrev Table := List Row

/-- Row at position `i` (tables are only read at in-range positions). -/
def rowAt (t : Table) (i : ℕ) : Row := t.getD i default

/-- Grouping key `["Driver", "Event"]`. -/
def keyDE (r : Row) : String × String := (r.driver, r.event)

/-- Grouping key `["Driver", "Event", "Compound"]` — a Stint. -/
def keyDEC (r : Row) : String × String × String := (r.driver, r.event, r.compound)

/-- Insert a rational into a sorted list, keeping it sorted. -/
def insertSorted (x : ℚ) : List ℚ → List ℚ
  | [] => [x]
  | y :: ys => if x ≤ y then x :: y :: ys else y :: insertSorted x ys

/-- Ascending insertion sort, used to embed pandas order statistics. -/
def sortQ (l : List ℚ) : List ℚ := l.foldr insertSorted []

/-- Median of a list of (finite) values, as pandas computes it: the middle
element of the sorted list, or the mean of the two middle elements. -/
def median (l : List ℚ) : ℚ :=
  let s := sortQ l
  let n := s.length
  if n = 0 then 0
  else if n % 2 = 1 then s.getD (n / 2) 0
  else (s.getD (n / 2 - 1) 0 + s.getD (n / 2) 0) / 2

/-- Minimum of a nonempty list (0 for the empty list, which group
aggregation never sees: every row's group contains the row itself). -/
def minQ : List ℚ → ℚ
  | [] => 0
  | x :: xs => xs.foldl min x

/-- The column `v` restricted to row `i`'s `(Driver, Event)` group:
the series a pandas `groupby(["Driver", "Event"])[col].transform(f)`
aggregates for row `i`. -/
def groupValsDE (t : Table) (i : ℕ) (v : Row → ℚ) : List ℚ :=
  (t.filter fun r => decide (keyDE r = keyDE (rowAt t i))).map v

/-! ### `features.py` — `_add_normalisation` -/

/-- Embeds `df["DriverTrackMedian"] = df.groupby(["Driver","Event"])["LapTime"].transform("median")`. -/
def driverTrackMedian (t : Table) (i : ℕ) : ℚ := median (groupValsDE t i Row.lapTime)

/-- Embeds `df["LapNorm"] = df["LapTime"] / df["DriverTrackMedian"]` (float division). -/
def lapNorm (t : Table) (i : ℕ) : PVal :=
  qdiv (rowAt t i).lapTime (driverTrackMedian t i)

/-- Embeds `med = df.groupby(["Driver","Event"])[sec].transform("median")` for a sector column. -/
def sectorTrackMedian (v : Row → ℚ) (t : Table) (i : ℕ) : ℚ := median (groupValsDE t i v)

/-- Embeds the per-sector Norm columns: the sector time divided by the
sector's `(Driver, Event)` median (float division). -/
def sectorNorm (v : Row → ℚ) (t : Table) (i : ℕ) : PVal :=
  qdiv (v (rowAt t i)) (sectorTrackMedian v t i)

/-! ### `features.py` — `_add_target` and `utils.py` — `delta_to_laptime` -/

/-- Embeds `df["BestLap"] = df.groupby(["Driver","Event"])["LapTime"].transform("min")`. -/
def bestLap (t : Table) (i : ℕ) : ℚ := minQ (groupValsDE t i Row.lapTime)

/-- Embeds `df["LapDelta"] = df["LapTime"] - df["BestLap"]` — the model target. -/
def lapDelta (t : Table) (i : ℕ) : ℚ := (rowAt t i).lapTime - bestLap t i

/-- Embeds `delta_to_laptime(delta, best_lap) = delta + best_lap` of utils.py. -/
def deltaToLaptime (delta best : ℚ) : ℚ := delta + best

/-! ### `features.py` — `_add_tyre_fuel` -/

/-- Constant `FUEL_LOAD_FACTOR = 0.0015` of config/settings.py. -/
def FUEL_LOAD_FACTOR : ℚ := 15 / 10000

/-- Constant `TYRE_DEGRADE_FACTOR = 0.003` of config/settings.py. -/
def TYRE_DEGRADE_FACTOR : ℚ := 3 / 1000

/-- Number of earlier rows of the table lying in row `i`'s Stint, i.e.
`df.groupby(["Driver","Event","Compound"]).cumcount()` at row `i`. -/
def countPriorInStint (t : Table) (i : ℕ) : ℕ :=
  ((List.range i).filter fun j => decide (keyDEC (rowAt t j) = keyDEC (rowAt t i))).length

/-- Embeds `df["StintLap"] = df.groupby(["Driver","Event","Compound"]).cumcount() + 1`. -/
def stintLap (t : Table) (i : ℕ) : ℚ := countPriorInStint t i + 1

/-- Embeds `df["FuelProxy"] = df["StintLap"]`. -/
def fuelProxy (t : Table) (i : ℕ) : ℚ := stintLap t i

/-- Embeds `df["FuelEffect"] = 1 + df["FuelProxy"] * FUEL_LOAD_FACTOR`. -/
def fuelEffect (t : Table) (i : ℕ) : ℚ := 1 + fuelProxy t i * FUEL_LOAD_FACTOR

/-- Embeds `df["Tyre_Degrade"] = 1 + df["TyreLife"] * TYRE_DEGRADE_FACTOR`. -/
def tyreDegrade (t : Table) (i : ℕ) : ℚ :=
  1 + ((rowAt t i).tyreLife : ℚ) * TYRE_DEGRADE_FACTOR

/-- Embeds `df["TyreFuel"] = df["Tyre_Degrade"] * df["FuelEffect"]`. -/
def tyreFuel (t : Table) (i : ℕ) : ℚ := tyreDegrade t i * fuelEffect t i

/-- Embeds `df["TyreFuelSq"] = (df["Tyre_Degrade"] ** 2) * df["FuelEffect"]`. -/
def tyreFuelSq (t : Table) (i : ℕ) : ℚ := tyreDegrade t i ^ 2 * fuelEffect t i

/-! ### `features.py` — `_add_lap_deltas` -/

/-- Position of the row immediately preceding position `i` within the same
Stint, scanning downward: the row a per-group `diff()`/`shift(1)` aligns
with row `i` (none at a stint's first row). -/
def prevInStint (t : Table) (k : String × String × String) : ℕ → Option ℕ
  | 0 => none
  | n + 1 => if keyDEC (rowAt t n) = k then some n else prevInStint t k n

/-- Embeds `df.groupby(["Driver","Event","Compound"])[col].diff().fillna(0)` at row `i`:
the difference from the immediately preceding row of the same stint, with the
NaN at each stint's first row filled with 0. -/
def prevDeltaFill (v : Row → ℚ) (t : Table) (i : ℕ) : ℚ :=
  match prevInStint t (keyDEC (rowAt t i)) i with
  | none => 0
  | some j => v (rowAt t i) - v (rowAt t j)

/-- The `LapDeltaPrev` column. -/
def lapDeltaPrevCol (t : Table) (i : ℕ) : ℚ := prevDeltaFill Row.lapTime t i

/-- The `Sector1Time_PrevDelta` column. -/
def sector1PrevDeltaCol (t : Table) (i : ℕ) : ℚ := prevDeltaFill Row.sector1Time t i

/-- The `Sector2Time_PrevDelta` column. -/
def sector2PrevDeltaCol (t : Table) (i : ℕ) : ℚ := prevDeltaFill Row.sector2Time t i

/-- The `Sector3Time_PrevDelta` column. -/
def sector3PrevDeltaCol (t : Table) (i : ℕ) : ℚ := prevDeltaFill Row.sector3Time t i

/-! ### `features.py` — `_add_rolling_stats` -/

/-- Constant `ROLLING_WINDOW = 3` of config/settings.py. -/
def ROLLING_WINDOW : ℕ := 3

/-- Embeds `df.groupby(["Driver","Event","Compound"])[col].shift(1)` at row `i`,
for a column given by position (`c`): the column's value at the previous
row of the same stint, NaN (`none`) at each stint's first row.  The result
is aligned to the original, ungrouped row order. -/
def groupShift1 (t : Table) (c : ℕ → ℚ) (i : ℕ) : Option ℚ :=
  (prevInStint t (keyDEC (rowAt t i)) i).map c

/-- Embeds `Series.rolling(w).mean()` at position `i` of a flat series `s`
(default `min_periods = w`): the mean of the `w` entries ending at `i`,
NaN (`none`) unless the window exists and every entry is present.
Note the window ranges over the series' flat positional order. -/
def flatRollMean (s : ℕ → Option ℚ) (w i : ℕ) : Option ℚ :=
  if w ≤ i + 1 then
    let win := (List.range w).map fun k => s (i - k)
    if win.all Option.isSome then some (win.reduceOption.sum / (w : ℚ)) else none
  else none

/-- The square of `Series.rolling(w).std()` at position `i` (sample
variance, `ddof = 1`).  The std itself is the square root of this, which
leaves ℚ; every claim below depends only on the value being zero/missing,
which squaring preserves (and `fillna(0)` commutes with the root at 0). -/
def flatRollVarSq (s : ℕ → Option ℚ) (w i : ℕ) : Option ℚ :=
  if w ≤ i + 1 ∧ 2 ≤ w then
    let win := (List.range w).map fun k => s (i - k)
    if win.all Option.isSome then
      let xs := win.reduceOption
      let m := xs.sum / (w : ℚ)
      some ((xs.map fun x => (x - m) ^ 2).sum / ((w : ℚ) - 1))
    else none
  else none

/-- Pandas `.fillna(0)` on a possibly-missing value. -/
def fillna0 : Option ℚ → ℚ
  | none => 0
  | some q => q

/-- Embeds the RollMean columns:
`shifted.rolling(ROLLING_WINDOW).mean().fillna(0)`, where
`shifted = df.groupby(["Driver","Event","Compound"])[col].shift(1)`.
The shift is per group, but the rolling window ranges over the flat row
order of the whole frame. -/
def rollMeanCol (t : Table) (c : ℕ → ℚ) (i : ℕ) : ℚ :=
  fillna0 (flatRollMean (groupShift1 t c) ROLLING_WINDOW i)

/-- Square of the RollStd columns (see `flatRollVarSq`). -/
def rollStdSqCol (t : Table) (c : ℕ → ℚ) (i : ℕ) : ℚ :=
  fillna0 (flatRollVarSq (groupShift1 t c) ROLLING_WINDOW i)

/-! ### `features.py` — `_add_sector_ratios` -/

/-- Embeds the sector-ratio columns `S1_Ratio`, `S2_Ratio`, `S3_Ratio`:
the sector time divided by `LapTime` (float division). -/
def ratioCol (v : Row → ℚ) (t : Table) (i : ℕ) : PVal :=
  qdiv (v (rowAt t i)) (rowAt t i).lapTime

/-! ### `utils.py` — `clean_data` -/

/-- A raw input row before cleaning: any required column may be missing. -/
structure RawRow where
  driver : Option String
  team : Option String
  event : Option String
  compound : Option String
  tyreLife : Option ℚ
  lapTime : Option ℚ
  sector1Time : Option ℚ
  sector2Time : Option ℚ
  sector3Time : Option ℚ
deriving DecidableEq, Inhabited

/-- Python `int()` applied to a float: truncation toward zero
(`df["TyreLife"].astype(int)`). -/
def truncInt (q : ℚ) : ℤ := if 0 ≤ q then ⌊q⌋ else -⌊-q⌋

/-- Embeds `df.dropna(subset=REQUIRED_COLS)` plus the `astype` casts, row-wise:
a row survives exactly when every required column is present. -/
def castRow (r : RawRow) : Option Row :=
  match r.driver, r.team, r.event, r.compound, r.tyreLife,
      r.lapTime, r.sector1Time, r.sector2Time, r.sector3Time with
  | some d, some tm, some e, some c, some tl, some lt, some s1, some s2, some s3 =>
      some ⟨d, tm, e, c, truncInt tl, lt, s1, s2, s3⟩
  | _, _, _, _, _, _, _, _, _ => none

/-- Constant `OUTLIER_QUANTILE = 0.995` of config/settings.py. -/
def OUTLIER_QUANTILE : ℚ := 995 / 1000

/-- Embeds `Series.quantile(q)` with pandas' default linear interpolation on the
sorted values: position `h = q * (n - 1)`, interpolating between the two
neighbouring order statistics. -/
def quantileLinear (l : List ℚ) (q : ℚ) : ℚ :=
  let s := sortQ l
  let n := s.length
  if n = 0 then 0
  else
    let h : ℚ := q * ((n : ℚ) - 1)
    let lo := (⌊h⌋).toNat
    s.getD lo 0 + (h - (lo : ℚ)) * (s.getD (lo + 1) 0 - s.getD lo 0)

/-- Embeds `clean_data`: drop rows with missing required columns, enforce types,
and keep only rows with `LapTime` strictly below the 0.995 quantile of the
surviving rows' lap times; the index is then reset to `0 .. n-1`
(here: list position). -/
def cleanData (t : List RawRow) : Table :=
  let rows := t.filterMap castRow
  let thr := quantileLinear (rows.map Row.lapTime) OUTLIER_QUANTILE
  rows.filter fun r => decide (r.lapTime < thr)

/-! ### `features.py` — `encode_categoricals` / the `FEATURES` matrix

The feature matrix handed to the regressor: one record per row holding
the `FEATURES` columns of `config/settings.py` (with `Team` and
`Compound` cast to categorical, which does not change their values).
The rolling-std entries carry the square of the pandas value
(see `flatRollVarSq`). -/

structure FeatVec where
  team : String
  compound : String
  tyreLife : ℤ
  tyreDegradeF : ℚ
  fuelProxyF : ℚ
  fuelEffectF : ℚ
  tyreFuelF : ℚ
  tyreFuelSqF : ℚ
  lapNormF : PVal
  lapDeltaPrevF : ℚ
  sector1NormF : PVal
  sector2NormF : PVal
  sector3NormF : PVal
  sector1PrevDeltaF : ℚ
  sector2PrevDeltaF : ℚ
  sector3PrevDeltaF : ℚ
  s1RatioF : PVal
  s2RatioF : PVal
  s3RatioF : PVal
  lapDeltaRollMeanF : ℚ
  lapDeltaRollStdSqF : ℚ
  sector1RollMeanF : ℚ
  sector1RollStdSqF : ℚ
  sector2RollMeanF : ℚ
  sector2RollStdSqF : ℚ
  sector3RollMeanF : ℚ
  sector3RollStdSqF : ℚ
deriving DecidableEq

/-- The feature-matrix record of row `i` of a feature-engineered table:
`encode_categoricals(df[FEATURES])` at row `i`. -/
def featVec (t : Table) (i : ℕ) : FeatVec where
  team := (rowAt t i).team
  compound := (rowAt t i).compound
  tyreLife := (rowAt t i).tyreLife
  tyreDegradeF := tyreDegrade t i
  fuelProxyF := fuelProxy t i
  fuelEffectF := fuelEffect t i
  tyreFuelF := tyreFuel t i
  tyreFuelSqF := tyreFuelSq t i
  lapNormF := lapNorm t i
  lapDeltaPrevF := lapDeltaPrevCol t i
  sector1NormF := sectorNorm Row.sector1Time t i
  sector2NormF := sectorNorm Row.sector2Time t i
  sector3NormF := sectorNorm Row.sector3Time t i
  sector1PrevDeltaF := sector1PrevDeltaCol t i
  sector2PrevDeltaF := sector2PrevDeltaCol t i
  sector3PrevDeltaF := sector3PrevDeltaCol t i
  s1RatioF := ratioCol Row.sector1Time t i
  s2RatioF := ratioCol Row.sector2Time t i
  s3RatioF := ratioCol Row.sector3Time t i
  lapDeltaRollMeanF := rollMeanCol t (lapDelta t) i
  lapDeltaRollStdSqF := rollStdSqCol t (lapDelta t) i
  sector1RollMeanF := rollMeanCol t (fun j => (rowAt t j).sector1Time) i
  sector1RollStdSqF := rollStdSqCol t (fun j => (rowAt t j).sector1Time) i
  sector2RollMeanF := rollMeanCol t (fun j => (rowAt t j).sector2Time) i
  sector2RollStdSqF := rollStdSqCol t (fun j => (rowAt t j).sector2Time) i
  sector3RollMeanF := rollMeanCol t (fun j => (rowAt t j).sector3Time) i
  sector3RollStdSqF := rollStdSqCol t (fun j => (rowAt t j).sector3Time) i

/-! ### `model.py` — `F1LapPredictor.predict`

The trained regressor is an opaque function from a feature record to a
predicted delta; `predict` cleans, engineers features, encodes, predicts
the delta and reconstructs absolute time via the cleaned frame's own
`BestLap` column, returning a series on the cleaned frame's index
`0 .. n-1` (list position). -/

def predictSeries (m : FeatVec → ℚ) (src : List RawRow) : List ℚ :=
  let df := cleanData src
  (List.range df.length).map fun i => deltaToLaptime (m (featVec df i)) (bestLap df i)

/-! ### `imputer.py` — `SimulatorImputer` -/

/-- The five imputable columns: `_IMPUTE_COLS + ["BestLap"]`. -/
inductive ImpCol where
  | lapTime
  | sector1Time
  | sector2Time
  | sector3Time
  | bestLap
deriving DecidableEq

/-- The five grouping-key tuples of `_FALLBACK_CHAIN`, by their columns:
`(Driver, Event, Compound)`, `(Driver, Compound)`, `(Team, Event, Compound)`,
`(Event, Compound)`, `(Compound,)`. -/
inductive FallbackLevel where
  | dec
  | dc
  | tec
  | ec
  | c
deriving DecidableEq

/-- Embeds `_FALLBACK_CHAIN`: the levels ordered most- to least-specific. -/
def FALLBACK_CHAIN : List FallbackLevel := [.dec, .dc, .tec, .ec, .c]

/-- Embeds `_IMPUTE_COLS + ["BestLap"]`, in the loop order of `impute`. -/
def IMPUTE_COLS_ALL : List ImpCol :=
  [.lapTime, .sector1Time, .sector2Time, .sector3Time, .bestLap]

/-- The fitted imputation state: per column and level, the dict of medians
keyed by that level's key tuple (`self._tables`), plus the per-column
global median (`self._global`).  Stored values are finite floats. -/
structure Imputer where
  tables : ImpCol → FallbackLevel → List (List String × ℚ)
  globalMedian : ImpCol → ℚ

instance : Inhabited Imputer := ⟨⟨fun _ _ => [], fun _ => 0⟩⟩

/-- The `lookup_key` dict of `impute`: the concrete key tuple this call
presents at each fallback level. -/
def lookupKey (Driver Team Event Compound : String) : FallbackLevel → List String
  | .dec => [Driver, Event, Compound]
  | .dc => [Driver, Compound]
  | .tec => [Team, Event, Compound]
  | .ec => [Event, Compound]
  | .c => [Compound]

/-- Python `dict.get(key)`: the stored value if the exact key is present. -/
def assocFind (tbl : List (List String × ℚ)) (k : List String) : Option ℚ :=
  (tbl.find? fun p => decide (p.1 = k)).map Prod.snd

/-- The fallback loop of `impute` for one column: walk the given levels in
order and return the first level's stored value whose exact key tuple is
present (Python: `value = ...get(key); if value is not None: break`). -/
def chainWalk (imp : Imputer) (col : ImpCol) (key : FallbackLevel → List String) :
    List FallbackLevel → Option ℚ
  | [] => none
  | l :: ls =>
    match assocFind (imp.tables col l) (key l) with
    | some v => some v
    | none => chainWalk imp col key ls

/-- One column's imputed value together with whether the global-median
warning was emitted for it (`warnings.warn(...)` fires exactly when every
level misses, and the call then proceeds with the global median). -/
def imputeCol (imp : Imputer) (col : ImpCol) (Driver Team Event Compound : String) :
    ℚ × Bool :=
  match chainWalk imp col (lookupKey Driver Team Event Compound) FALLBACK_CHAIN with
  | some v => (v, false)
  | none => (imp.globalMedian col, true)

/-- The payload of the non-fatal `UserWarning` `impute` emits when a column
falls through to the global median: it names the column and the value used. -/
structure ImpWarning where
  col : ImpCol
  value : ℚ
deriving DecidableEq

/-- A synthetic row built by `impute`: the base columns plus the imputed
`BestLap` column of the synthetic frame. -/
structure SimRow extends Row where
  bestLapImputed : ℚ
deriving DecidableEq

instance : Inhabited SimRow := ⟨⟨default, 0⟩⟩

/-- Embeds `SimulatorImputer.impute`: impute every column through the fallback
chain once, then build `n_laps` rows (`range(n_laps)`, so fewer than one
lap yields an empty frame with no error), each with `TyreLife` =
`int(TyreLife) + i` and every imputed column held at the same value.
Returns the rows and the warnings emitted, in loop order. -/
def impute (imp : Imputer) (Driver Team Event Compound : String)
    (TyreLife : ℚ) (nLaps : ℤ) : List SimRow × List ImpWarning :=
  let res := fun c => imputeCol imp c Driver Team Event Compound
  let warns := IMPUTE_COLS_ALL.filterMap fun c =>
    if (res c).2 then some ⟨c, (res c).1⟩ else none
  let rows := (List.range nLaps.toNat).map fun i : ℕ =>
    ({ driver := Driver, team := Team, event := Event, compound := Compound,
       tyreLife := truncInt TyreLife + (i : ℤ),
       lapTime := (res .lapTime).1,
       sector1Time := (res .sector1Time).1,
       sector2Time := (res .sector2Time).1,
       sector3Time := (res .sector3Time).1,
       bestLapImputed := (res .bestLap).1 } : SimRow)
  (rows, warns)

/-! ### `model.py` — `F1LapPredictor.simulate`

`simulate` builds the synthetic frame via the imputer, runs
`build_features` on it (note `_add_target` overwrites the imputed
`BestLap` column with the group-wise minimum of the imputed `LapTime`
before it is read again, which is what `bestLap` computes), predicts, and
returns a series indexed `range(int(TyreLife), int(TyreLife) + n_laps)`. -/

def simulate (m : FeatVec → ℚ) (imp : Imputer) (Driver Team Event Compound : String)
    (TyreLife : ℚ) (nLaps : ℤ) : List (ℤ × ℚ) :=
  let dfSim : Table := (impute imp Driver Team Event Compound TyreLife nLaps).1.map
    SimRow.toRow
  let preds := (List.range dfSim.length).map fun i =>
    deltaToLaptime (m (featVec dfSim i)) (bestLap dfSim i)
  (((List.range nLaps.toNat).map fun i : ℕ => truncInt TyreLife + (i : ℤ)).zip preds)

/-! ### `imputer.py` — introspection, and `model.py` — the state machine -/

/-- Insert a string into a sorted duplicate-free list (`sorted(set(...))`). -/
def insertStr (x : String) : List String → List String
  | [] => [x]
  | y :: ys => if x < y then x :: y :: ys else if x = y then y :: ys else y :: insertStr x ys

/-- Python sorted set: the distinct values, ascending. -/
def sortedSet (l : List String) : List String := l.foldr insertStr []

/-- Embeds `known_drivers`: the sorted set of first key components of the
LapTime table at the `(Driver, Compound)` level. -/
def knownDrivers (imp : Imputer) : List String :=
  sortedSet ((imp.tables .lapTime .dc).map fun p => p.1.headD "")

/-- Embeds `known_events`: the sorted set of second key components of the
LapTime table at the `(Driver, Event, Compound)` level. -/
def knownEvents (imp : Imputer) : List String :=
  sortedSet ((imp.tables .lapTime .dec).map fun p => p.1.getD 1 "")

/-- Embeds `known_compounds`: the sorted set of first key components of the
LapTime table at the single-element `(Compound,)` level. -/
def knownCompounds (imp : Imputer) : List String :=
  sortedSet ((imp.tables .lapTime .c).map fun p => p.1.headD "")

/-- The message of the `RuntimeError` raised by `_check_fitted`. -/
def UNFITTED_MSG : String := "Model is not fitted yet. Call .fit() first."

/-- The observable state of an `F1LapPredictor` instance: the regressor
(opaque), the `_is_fitted` flag, and the fitted artefacts (`imputer_`,
`feature_importance_`), absent until `fit`/`load` establishes them. -/
structure Predictor where
  model : FeatVec → ℚ
  isFitted : Bool
  imputerState : Option Imputer
  featImportance : Option (List (String × ℚ))

/-- Embeds `__init__`: a fresh instance is unfitted with no artefacts. -/
def initPredictor (m : FeatVec → ℚ) : Predictor :=
  { model := m, isFitted := false, imputerState := none, featImportance := none }

/-- Embeds `_check_fitted`: raises `RuntimeError` unless `_is_fitted`. -/
def checkFitted (p : Predictor) : Except String Unit :=
  if p.isFitted then .ok () else .error UNFITTED_MSG

/-- Embeds `F1LapPredictor.predict`. -/
def predictE (p : Predictor) (src : List RawRow) : Except String (List ℚ) := do
  checkFitted p
  return predictSeries p.model src

/-- Mean absolute error over positionally paired actual/predicted values. -/
def maeQ (actual preds : List ℚ) : ℚ :=
  ((actual.zip preds).map fun pr => |pr.1 - pr.2|).sum / (actual.length : ℚ)

/-- Embeds `F1LapPredictor.evaluate`: predict and compare against `LapTime`. -/
def evaluateE (p : Predictor) (src : List RawRow) : Except String ℚ := do
  checkFitted p
  return maeQ ((cleanData src).map Row.lapTime) (predictSeries p.model src)

/-- Embeds `F1LapPredictor.feature_importance`: the top-`n` stored importances. -/
def featureImportanceE (p : Predictor) (topN : ℕ) :
    Except String (List (String × ℚ)) := do
  checkFitted p
  return ((p.featImportance.getD []).take topN)

/-- Embeds `F1LapPredictor.simulate`. -/
def simulateE (p : Predictor) (Driver Team Event Compound : String)
    (TyreLife : ℚ) (nLaps : ℤ) : Except String (List (ℤ × ℚ)) := do
  checkFitted p
  return simulate p.model (p.imputerState.getD default) Driver Team Event Compound
    TyreLife nLaps

/-- Embeds `F1LapPredictor.known_drivers`. -/
def knownDriversE (p : Predictor) : Except String (List String) := do
  checkFitted p
  return knownDrivers (p.imputerState.getD default)

/-- Embeds `F1LapPredictor.known_events`. -/
def knownEventsE (p : Predictor) : Except String (List String) := do
  checkFitted p
  return knownEvents (p.imputerState.getD default)

/-- Embeds `F1LapPredictor.known_compounds`. -/
def knownCompoundsE (p : Predictor) : Except String (List String) := do
  checkFitted p
  return knownCompounds (p.imputerState.getD default)

/-! ### Theorem C8 -/

/-- C8: `delta_to_laptime` is the exact inverse of the delta-target
construction: for every table and every row, applying it to the row's
`LapDelta` and `BestLap` (where `LapDelta = LapTime − BestLap` and
`BestLap` is the `(Driver, Event)`-group minimum of `LapTime`) returns the
row's `LapTime` exactly. -/
theorem deltaToLaptime_exact_inverse (t : Table) (i : ℕ) (h : i < t.length) :
    deltaToLaptime (lapDelta t i) (bestLap t i) = (rowAt t i).lapTime := by
  unfold deltaToLaptime lapDelta
  ring

/-- Witness for C8 at a concrete one-row table. -/
theorem deltaToLaptime_exact_inverse_witness :
    deltaToLaptime (lapDelta [⟨"VER", "RBR", "Bahrain", "SOFT", 3, 92, 30, 31, 31⟩] 0)
        (bestLap [⟨"VER", "RBR", "Bahrain", "SOFT", 3, 92, 30, 31, 31⟩] 0) =
      (rowAt [⟨"VER", "RBR", "Bahrain", "SOFT", 3, 92, 30, 31, 31⟩] 0).lapTime :=
  deltaToLaptime_exact_inverse _ 0 (by decide)

/-! ### Characterisation of the per-stint predecessor scan -/

theorem prevInStint_none_iff (t : Table) (k : String × String × String) (i : ℕ) :
    prevInStint t k i = none ↔ ∀ j, j < i → keyDEC (rowAt t j) ≠ k := by
  induction i with
  | zero => simp [prevInStint]
  | succ n ih =>
    rw [prevInStint]
    by_cases hk : keyDEC (rowAt t n) = k
    · rw [if_pos hk]
      constructor
      · intro h; simp at h
      · intro h; exact absurd hk (h n (Nat.lt_succ_self n))
    · rw [if_neg hk, ih]
      constructor
      · intro h j hj
        rcases Nat.lt_succ_iff_lt_or_eq.mp hj with h1 | rfl
        · exact h j h1
        · exact hk
      · intro h j hj
        exact h j (Nat.lt_succ_of_lt hj)

theorem prevInStint_eq_some (t : Table) (k : String × String × String) (i j : ℕ) :
    j < i → keyDEC (rowAt t j) = k →
    (∀ l, j < l → l < i → keyDEC (rowAt t l) ≠ k) →
    prevInStint t k i = some j := by
  induction i generalizing j with
  | zero => intro hj _ _; exact absurd hj (Nat.not_lt_zero j)
  | succ n ih =>
    intro hj hk hmax
    rw [prevInStint]
    by_cases hn : keyDEC (rowAt t n) = k
    · have hjn : j = n := by
        rcases Nat.lt_succ_iff_lt_or_eq.mp hj with h1 | rfl
        · exact absurd hn (hmax n h1 (Nat.lt_succ_self n))
        · rfl
      rw [if_pos hn, hjn]
    · rw [if_neg hn]
      have hjn : j < n := by
        rcases Nat.lt_succ_iff_lt_or_eq.mp hj with h1 | rfl
        · exact h1
        · exact absurd hk hn
      exact ih j hjn hk fun l hl1 hl2 => hmax l hl1 (Nat.lt_succ_of_lt hl2)

theorem countPriorInStint_eq_zero_iff (t : Table) (i : ℕ) :
    countPriorInStint t i = 0 ↔
      ∀ j, j < i → keyDEC (rowAt t j) ≠ keyDEC (rowAt t i) := by
  simp [countPriorInStint, List.length_eq_zero, List.filter_eq_nil_iff, List.mem_range]

/-- Both halves of the per-stint `diff().fillna(0)` behaviour, for an
arbitrary base column `v`. -/
theorem prevDeltaFill_spec (v : Row → ℚ) (t : Table) (i : ℕ) :
    (countPriorInStint t i = 0 → prevDeltaFill v t i = 0) ∧
    (∀ j, j < i → keyDEC (rowAt t j) = keyDEC (rowAt t i) →
      (∀ l, j < l → l < i → keyDEC (rowAt t l) ≠ keyDEC (rowAt t i)) →
      prevDeltaFill v t i = v (rowAt t i) - v (rowAt t j)) := by
  constructor
  · intro h0
    have hnone : prevInStint t (keyDEC (rowAt t i)) i = none :=
      (prevInStint_none_iff t _ i).mpr ((countPriorInStint_eq_zero_iff t i).mp h0)
    unfold prevDeltaFill
    rw [hnone]
  · intro j hj hk hmax
    have hsome := prevInStint_eq_some t (keyDEC (rowAt t i)) i j hj hk hmax
    unfold prevDeltaFill
    rw [hsome]

/-! ### Theorem C9 -/

/-- C9: for each of `LapDeltaPrev`, `Sector1Time_PrevDelta`,
`Sector2Time_PrevDelta`, `Sector3Time_PrevDelta`: a row with no earlier
row in its Stint (`(Driver, Event, Compound)` group) gets exactly 0 —
never an undefined value — and every later lap of the stint gets the
difference of its time from the immediately preceding lap of the same
stint (the greatest earlier row position with the same stint key). -/
theorem prevDelta_stint_spec (c : Table → ℕ → ℚ) (v : Row → ℚ)
    (hcv : (c, v) ∈ [(lapDeltaPrevCol, Row.lapTime),
      (sector1PrevDeltaCol, Row.sector1Time),
      (sector2PrevDeltaCol, Row.sector2Time),
      (sector3PrevDeltaCol, Row.sector3Time)])
    (t : Table) (i : ℕ) (hi : i < t.length) :
    (countPriorInStint t i = 0 → c t i = 0) ∧
    (∀ j, j < i → keyDEC (rowAt t j) = keyDEC (rowAt t i) →
      (∀ l, j < l → l < i → keyDEC (rowAt t l) ≠ keyDEC (rowAt t i)) →
      c t i = v (rowAt t i) - v (rowAt t j)) := by
  have hc : c t i = prevDeltaFill v t i := by
    simp only [List.mem_cons, List.not_mem_nil, or_false, Prod.mk.injEq] at hcv
    rcases hcv with ⟨rfl, rfl⟩ | ⟨rfl, rfl⟩ | ⟨rfl, rfl⟩ | ⟨rfl, rfl⟩ <;> rfl
  rw [hc]
  exact prevDeltaFill_spec v t i

/-- Witness for C9: a two-lap single-stint table; the stint's first lap
has `LapDeltaPrev = 0`. -/
theorem prevDelta_stint_spec_witness :
    lapDeltaPrevCol [⟨"VER", "RBR", "Bahrain", "SOFT", 1, 92, 30, 31, 31⟩,
      ⟨"VER", "RBR", "Bahrain", "SOFT", 2, 93, 30, 31, 32⟩] 0 = 0 :=
  (prevDelta_stint_spec lapDeltaPrevCol Row.lapTime (List.Mem.head _)
    [⟨"VER", "RBR", "Bahrain", "SOFT", 1, 92, 30, 31, 31⟩,
      ⟨"VER", "RBR", "Bahrain", "SOFT", 2, 93, 30, 31, 32⟩] 0 (by decide)).1 (by decide)

/-! ### Theorem C1 -/

/-- A chronologically ordered session in which two drivers' stints
interleave in row order — driver A occupies rows 0, 2, 4 and driver B
rows 1, 3, 5, each a single stint. -/
def interleavedTable : Table :=
  [⟨"A", "T1", "E", "SOFT", 1, 90, 10, 40, 40⟩,
   ⟨"B", "T2", "E", "SOFT", 1, 95, 100, 40, 40⟩,
   ⟨"A", "T1", "E", "SOFT", 2, 91, 20, 40, 40⟩,
   ⟨"B", "T2", "E", "SOFT", 2, 96, 200, 40, 40⟩,
   ⟨"A", "T1", "E", "SOFT", 3, 92, 30, 40, 40⟩,
   ⟨"B", "T2", "E", "SOFT", 3, 97, 300, 40, 40⟩]

/-- C1: evaluation exhibiting the defect.  Row 4 is driver A's third lap:
it has only 2 prior laps in its stint, so the claim requires
`Sector1Time_RollMean = 0`; but because `_add_rolling_stats` applies
`.rolling(ROLLING_WINDOW)` to the flat, ungrouped shifted series, the
window at row 4 spans rows 2, 3, 4 and mixes driver B's shifted sector
time (100) with driver A's (10 and 20), giving 130/3 ≠ 0. -/
theorem rollMean_crosses_stints :
    countPriorInStint interleavedTable 4 = 2 ∧
    rollMeanCol interleavedTable (fun j => (rowAt interleavedTable j).sector1Time) 4 =
      130 / 3 ∧
    (130 / 3 : ℚ) ≠ 0 := by
  refine ⟨by decide, ?_, by norm_num⟩
  simp [rollMeanCol, flatRollMean, groupShift1, prevInStint, interleavedTable,
    rowAt, keyDEC, ROLLING_WINDOW, fillna0, List.range_succ]
  norm_num

/-! ### Theorem C2 -/

/-- The columns assigned by `build_features`' helpers (`df[col] = ...`),
in assignment order across the six stages. -/
def BUILD_FEATURES_ASSIGNED_COLUMNS : List String :=
  ["DriverTrackMedian", "LapNorm",
   "Sector1Time_DriverTrackMedian", "Sector1Time_Norm",
   "Sector2Time_DriverTrackMedian", "Sector2Time_Norm",
   "Sector3Time_DriverTrackMedian", "Sector3Time_Norm",
   "BestLap", "LapDelta",
   "StintLap", "FuelProxy", "FuelEffect", "Tyre_Degrade", "TyreFuel", "TyreFuelSq",
   "LapDeltaPrev", "Sector1Time_PrevDelta", "Sector2Time_PrevDelta", "Sector3Time_PrevDelta",
   "LapDelta_RollMean", "LapDelta_RollStd",
   "Sector1Time_RollMean", "Sector1Time_RollStd",
   "Sector2Time_RollMean", "Sector2Time_RollStd",
   "Sector3Time_RollMean", "Sector3Time_RollStd",
   "S1_Ratio", "S2_Ratio", "S3_Ratio"]

/-- Constant `REQUIRED_COLS` of config/settings.py: the columns of a cleaned
input frame. -/
def REQUIRED_COLS : List String :=
  ["Driver", "Team", "Compound", "TyreLife",
   "LapTime", "Sector1Time", "Sector2Time", "Sector3Time", "Event"]

/-- Pandas column assignment `df[c] = ...` mutates the frame object in
place (appending column `c` if absent, overwriting it otherwise), and none
of `build_features`' helpers copies its argument frame; the column set of
the caller's frame object after `build_features(df)` returns is therefore
the original columns followed by every newly assigned column. -/
def callerColumnsAfterBuildFeatures (cols : List String) : List String :=
  BUILD_FEATURES_ASSIGNED_COLUMNS.foldl
    (fun acc c => if c ∈ acc then acc else acc ++ [c]) cols

/-- C2: evaluation exhibiting the defect.  After `build_features(df)` the
caller's frame object no longer holds exactly the columns it held before:
it has gained the engineered columns (e.g. `BestLap`), because every
helper assigns columns on the caller's frame in place. -/
theorem buildFeatures_mutates_caller :
    callerColumnsAfterBuildFeatures REQUIRED_COLS ≠ REQUIRED_COLS ∧
    "BestLap" ∈ callerColumnsAfterBuildFeatures REQUIRED_COLS ∧
    "BestLap" ∉ REQUIRED_COLS := by decide

/-! ### Theorem C5 -/

theorem qdiv_zero_zero : qdiv 0 0 = PVal.nan := by simp [qdiv]

theorem qdiv_zero_den_ne (a : ℚ) (ha : a ≠ 0) :
    (qdiv a 0).isNA = false ∧ (qdiv a 0 = PVal.pinf ∨ qdiv a 0 = PVal.ninf) := by
  unfold qdiv
  rw [if_pos rfl, if_neg ha]
  by_cases h : 0 < a
  · rw [if_pos h]
    exact ⟨rfl, Or.inl rfl⟩
  · rw [if_neg h]
    exact ⟨rfl, Or.inr rfl⟩

theorem qdiv_ne_zero_den (a b : ℚ) (hb : b ≠ 0) : qdiv a b = PVal.fin (a / b) := by
  unfold qdiv
  rw [if_neg hb]

/-- A single-stint table whose `(Driver, Event)` lap-time median is 0
while row 2's lap time is 6. -/
def zeroMedianTable : Table :=
  [⟨"A", "T", "E", "SOFT", 1, 0, 0, 0, 0⟩,
   ⟨"A", "T", "E", "SOFT", 2, 0, 0, 0, 0⟩,
   ⟨"A", "T", "E", "SOFT", 3, 6, 2, 2, 2⟩]

/-- C5 counterexample: with group lap times 0, 0 and 6 the
`(Driver, Event)` median is 0 and row 2's `LapNorm` is `+inf` — the pandas
float division of the nonzero lap time 6 by the zero median — which is not
a missing value (`pd.isna(inf)` is false).  This refutes the claim that
the affected normalisation entries are an explicit missing value. -/
theorem lapNorm_zero_median_not_missing :
    driverTrackMedian zeroMedianTable 2 = 0 ∧
    lapNorm zeroMedianTable 2 = PVal.pinf ∧
    (lapNorm zeroMedianTable 2).isNA = false := by decide

/-- C5 amended: a zero group median (or zero `LapTime` divisor for the
ratio columns) makes the affected entry non-finite but never raises — it
is NaN (a missing value) exactly when the numerator is also zero, and a
signed infinity (not a missing value) otherwise; a nonzero divisor gives a
finite value.  The embedded pipeline is total: no case raises. -/
theorem division_edge_cases (t : Table) (i : ℕ) (hi : i < t.length) :
    (driverTrackMedian t i = 0 → (rowAt t i).lapTime = 0 → lapNorm t i = PVal.nan) ∧
    (driverTrackMedian t i = 0 → (rowAt t i).lapTime ≠ 0 →
      (lapNorm t i).isNA = false ∧
        (lapNorm t i = PVal.pinf ∨ lapNorm t i = PVal.ninf)) ∧
    (driverTrackMedian t i ≠ 0 →
      lapNorm t i = PVal.fin ((rowAt t i).lapTime / driverTrackMedian t i)) ∧
    (∀ v : Row → ℚ, sectorTrackMedian v t i = 0 → v (rowAt t i) = 0 →
      sectorNorm v t i = PVal.nan) ∧
    (∀ v : Row → ℚ, sectorTrackMedian v t i = 0 → v (rowAt t i) ≠ 0 →
      (sectorNorm v t i).isNA = false) ∧
    (∀ v : Row → ℚ, (rowAt t i).lapTime = 0 → v (rowAt t i) = 0 →
      ratioCol v t i = PVal.nan) ∧
    (∀ v : Row → ℚ, (rowAt t i).lapTime = 0 → v (rowAt t i) ≠ 0 →
      (ratioCol v t i).isNA = false) := by
  refine ⟨?_, ?_, ?_, ?_, ?_, ?_, ?_⟩
  · intro hm h0
    unfold lapNorm
    rw [hm, h0]
    exact qdiv_zero_zero
  · intro hm h0
    unfold lapNorm
    rw [hm]
    exact qdiv_zero_den_ne _ h0
  · intro hm
    unfold lapNorm
    exact qdiv_ne_zero_den _ _ hm
  · intro v hm h0
    unfold sectorNorm
    rw [hm, h0]
    exact qdiv_zero_zero
  · intro v hm h0
    unfold sectorNorm
    rw [hm]
    exact (qdiv_zero_den_ne _ h0).1
  · intro v hm h0
    unfold ratioCol
    rw [hm, h0]
    exact qdiv_zero_zero
  · intro v hm h0
    unfold ratioCol
    rw [hm]
    exact (qdiv_zero_den_ne _ h0).1

/-- Witness for C5 (amended) at the concrete zero-median table. -/
theorem division_edge_cases_witness :
    (lapNorm zeroMedianTable 2).isNA = false ∧
      (lapNorm zeroMedianTable 2 = PVal.pinf ∨ lapNorm zeroMedianTable 2 = PVal.ninf) :=
  (division_edge_cases zeroMedianTable 2 (by decide)).2.1 (by decide) (by decide)

/-! ### Theorem C4 -/

/-- A raw table with two fully populated rows, of which cleaning keeps
exactly one: the 0.995 quantile of the lap times 90 and 290 is
90 + 0.995 · 200 = 289, and the outlier filter keeps only lap times
strictly below it, so the slowest row is dropped. -/
def twoRawTable : List RawRow :=
  [⟨some "A", some "T", some "E", some "SOFT", some 1, some 90, some 30, some 30, some 30⟩,
   ⟨some "A", some "T", some "E", some "SOFT", some 2, some 290, some 33, some 33, some 34⟩]

theorem cleanData_twoRawTable :
    cleanData twoRawTable = [⟨"A", "T", "E", "SOFT", 1, 90, 30, 30, 30⟩] := by
  have hrows : twoRawTable.filterMap castRow =
      [⟨"A", "T", "E", "SOFT", 1, 90, 30, 30, 30⟩,
       ⟨"A", "T", "E", "SOFT", 2, 290, 33, 33, 34⟩] := by decide
  have hthr : quantileLinear
      (([⟨"A", "T", "E", "SOFT", 1, 90, 30, 30, 30⟩,
         ⟨"A", "T", "E", "SOFT", 2, 290, 33, 33, 34⟩] : Table).map Row.lapTime)
      OUTLIER_QUANTILE = 289 := by
    norm_num [quantileLinear, sortQ, insertSorted, OUTLIER_QUANTILE]
  unfold cleanData
  rw [hrows]
  simp only [hthr]
  decide

/-- C4 counterexample: `predict` does not return one entry per input row.
On a fully valid two-row input, `clean_data`'s strict outlier filter
(`LapTime < quantile(0.995)` of the cleaned lap times) always drops at
least the slowest lap, so `predict` returns one entry for two input rows,
and the surviving entries are re-keyed on the reset index, not by the
original input row. -/
theorem predict_not_one_per_input_row :
    twoRawTable.length = 2 ∧
    (predictSeries (fun _ => 0) twoRawTable).length = 1 := by
  refine ⟨rfl, ?_⟩
  simp [predictSeries, cleanData_twoRawTable]

/-- helper: `getD` of a function mapped over `List.range`. -/
theorem getD_map_range {α : Type} (f : ℕ → α) (n i : ℕ) (d : α) (h : i < n) :
    ((List.range n).map f).getD i d = f i := by
  rw [List.getD_eq_getElem?_getD, List.getElem?_map, List.getElem?_range h]
  rfl

/-- C4 amended: `predict` returns one entry per row of the cleaned input
(the rows surviving `clean_data`'s dropna and strict outlier filter),
keyed positionally `0 .. n-1` on the cleaned frame's reset index; the
entry for cleaned row `i` is the model's predicted delta at that row's
feature record, reconstructed to absolute time via that row's own
`BestLap` computed inside `predict`'s own feature-engineering pass. -/
theorem predict_series_shape (m : FeatVec → ℚ) (src : List RawRow) :
    (predictSeries m src).length = (cleanData src).length ∧
    ∀ i, i < (cleanData src).length →
      (predictSeries m src).getD i 0 =
        deltaToLaptime (m (featVec (cleanData src) i)) (bestLap (cleanData src) i) := by
  constructor
  · simp [predictSeries]
  · intro i hi
    unfold predictSeries
    exact getD_map_range _ _ i 0 hi

/-- Witness for C4 (amended) at the concrete two-row table. -/
theorem predict_series_shape_witness :
    (predictSeries (fun _ => 0) twoRawTable).getD 0 0 =
      deltaToLaptime ((fun _ => 0) (featVec (cleanData twoRawTable) 0))
        (bestLap (cleanData twoRawTable) 0) :=
  (predict_series_shape (fun _ => 0) twoRawTable).2 0 (by
    rw [cleanData_twoRawTable]
    decide)

/-! ### Theorem C3 -/

theorem chainWalk_append_none (imp : Imputer) (col : ImpCol)
    (key : FallbackLevel → List String) (pre rest : List FallbackLevel)
    (hpre : ∀ l ∈ pre, assocFind (imp.tables col l) (key l) = none) :
    chainWalk imp col key (pre ++ rest) = chainWalk imp col key rest := by
  induction pre with
  | nil => rfl
  | cons a as ih =>
    rw [List.cons_append]
    rw [chainWalk, hpre a (List.mem_cons_self a as)]
    exact ih fun l hl => hpre l (List.mem_cons_of_mem a hl)

theorem chainWalk_all_none (imp : Imputer) (col : ImpCol)
    (key : FallbackLevel → List String) (ls : List FallbackLevel)
    (hall : ∀ l ∈ ls, assocFind (imp.tables col l) (key l) = none) :
    chainWalk imp col key ls = none := by
  induction ls with
  | nil => rfl
  | cons a as ih =>
    rw [chainWalk, hall a (List.mem_cons_self a as)]
    exact ih fun l hl => hall l (List.mem_cons_of_mem a hl)

/-- C3: for every fitted imputation table, column and input key: (a) if the
most specific level `(Driver, Event, Compound)` holds the exact key tuple,
its value is used with no warning — no less specific level is consulted;
(b) in general the first level of the fallback chain whose exact key tuple
is present wins, with no warning; (c) if no level matches, the column's
global median is used, the warning flag is set, and `impute` emits a
warning naming the column and the value used — the call still returns
normally (the embedding is total). -/
theorem imputer_fallback_spec (imp : Imputer) (col : ImpCol)
    (Driver Team Event Compound : String) :
    (∀ v, assocFind (imp.tables col .dec)
        (lookupKey Driver Team Event Compound .dec) = some v →
      imputeCol imp col Driver Team Event Compound = (v, false)) ∧
    (∀ pre l post, FALLBACK_CHAIN = pre ++ l :: post →
      (∀ l2 ∈ pre, assocFind (imp.tables col l2)
        (lookupKey Driver Team Event Compound l2) = none) →
      ∀ v, assocFind (imp.tables col l)
        (lookupKey Driver Team Event Compound l) = some v →
      imputeCol imp col Driver Team Event Compound = (v, false)) ∧
    ((∀ l ∈ FALLBACK_CHAIN, assocFind (imp.tables col l)
        (lookupKey Driver Team Event Compound l) = none) →
      imputeCol imp col Driver Team Event Compound = (imp.globalMedian col, true) ∧
      (⟨col, imp.globalMedian col⟩ : ImpWarning) ∈
        (impute imp Driver Team Event Compound 0 1).2) := by
  have hfirst : ∀ pre l post, FALLBACK_CHAIN = pre ++ l :: post →
      (∀ l2 ∈ pre, assocFind (imp.tables col l2)
        (lookupKey Driver Team Event Compound l2) = none) →
      ∀ v, assocFind (imp.tables col l)
        (lookupKey Driver Team Event Compound l) = some v →
      imputeCol imp col Driver Team Event Compound = (v, false) := by
    intro pre l post hchain hpre v hv
    unfold imputeCol
    rw [hchain, chainWalk_append_none imp col _ pre _ hpre, chainWalk, hv]
  refine ⟨?_, hfirst, ?_⟩
  · intro v hv
    exact hfirst [] .dec [.dc, .tec, .ec, .c] rfl (by simp) v hv
  · intro hall
    have hnone : chainWalk imp col (lookupKey Driver Team Event Compound)
        FALLBACK_CHAIN = none := chainWalk_all_none imp col _ _ hall
    have hcol : imputeCol imp col Driver Team Event Compound =
        (imp.globalMedian col, true) := by
      unfold imputeCol
      rw [hnone]
    refine ⟨hcol, ?_⟩
    show _ ∈ (impute imp Driver Team Event Compound 0 1).2
    unfold impute
    refine List.mem_filterMap.mpr ⟨col, ?_, ?_⟩
    · cases col <;> simp [IMPUTE_COLS_ALL]
    · simp [hcol]

/-- An imputation table populated only at `LapTime`'s most specific level
(and its `(Compound,)` level), used to instantiate the imputer theorems. -/
def testImputer : Imputer where
  tables := fun c l =>
    match c, l with
    | .lapTime, .dec => [(["VER", "Bahrain", "SOFT"], 92)]
    | .lapTime, .c => [(["SOFT"], 95)]
    | _, _ => []
  globalMedian := fun _ => 80

/-- Witness for C3: the most specific level is present for `LapTime`, so
its value 92 is used (not the 95 stored at the least specific level, nor
the global 80) and no warning is emitted. -/
theorem imputer_fallback_spec_witness :
    imputeCol testImputer .lapTime "VER" "RBR" "Bahrain" "SOFT" = (92, false) :=
  (imputer_fallback_spec testImputer .lapTime "VER" "RBR" "Bahrain" "SOFT").1 92
    (by decide)

/-! ### Theorem C6 -/

/-- C6: evaluation exhibiting the defect.  `impute` performs no `n_laps`
validation: called with `n_laps = 0` (or any value below 1) it
silently returns an empty frame — `range(n_laps)` is empty — instead of
failing with a validation error naming `n_laps < 1`. -/
theorem impute_no_nlaps_validation :
    (impute testImputer "VER" "RBR" "Bahrain" "SOFT" 5 0).1 = [] ∧
    (impute testImputer "VER" "RBR" "Bahrain" "SOFT" 5 (-3)).1 = [] := by decide

/-! ### Theorem C7 -/

/-- helper: `getD` of a zip at an in-range position. -/
theorem getD_zip {α β : Type} (l : List α) (l2 : List β) (i : ℕ) (d : α) (d2 : β)
    (h : i < l.length) (h2 : i < l2.length) :
    (l.zip l2).getD i (d, d2) = (l.getD i d, l2.getD i d2) := by
  induction l generalizing l2 i with
  | nil => simp at h
  | cons a as ih =>
    cases l2 with
    | nil => simp at h2
    | cons b bs =>
      cases i with
      | zero => rfl
      | succ n =>
        rw [List.zip_cons_cons, List.getD_cons_succ, List.getD_cons_succ,
          List.getD_cons_succ]
        exact ih bs n (by simpa using h) (by simpa using h2)

/-- C7: a valid `impute` call returns exactly `n_laps` synthetic rows; row
`i` (0-based) has `TyreLife = int(TyreLife) + i`; every imputed column
(`LapTime`, the three sector times, `BestLap`) holds the same value in all
rows (each equals row 0's value); and `simulate`'s output has length
`n_laps` with indices `int(TyreLife), int(TyreLife) + 1, …`. -/
theorem impute_simulate_shape (m : FeatVec → ℚ) (imp : Imputer)
    (Driver Team Event Compound : String) (TyreLife : ℚ) (n : ℤ) (h1 : 1 ≤ n) :
    (((impute imp Driver Team Event Compound TyreLife n).1.length : ℤ) = n) ∧
    (∀ i, i < n.toNat →
      ((impute imp Driver Team Event Compound TyreLife n).1.getD i default).tyreLife =
        truncInt TyreLife + i ∧
      ((impute imp Driver Team Event Compound TyreLife n).1.getD i default).lapTime =
        ((impute imp Driver Team Event Compound TyreLife n).1.getD 0 default).lapTime ∧
      ((impute imp Driver Team Event Compound TyreLife n).1.getD i default).sector1Time =
        ((impute imp Driver Team Event Compound TyreLife n).1.getD 0 default).sector1Time ∧
      ((impute imp Driver Team Event Compound TyreLife n).1.getD i default).sector2Time =
        ((impute imp Driver Team Event Compound TyreLife n).1.getD 0 default).sector2Time ∧
      ((impute imp Driver Team Event Compound TyreLife n).1.getD i default).sector3Time =
        ((impute imp Driver Team Event Compound TyreLife n).1.getD 0 default).sector3Time ∧
      ((impute imp Driver Team Event Compound TyreLife n).1.getD i default).bestLapImputed =
        ((impute imp Driver Team Event Compound TyreLife n).1.getD 0 default).bestLapImputed) ∧
    (simulate m imp Driver Team Event Compound TyreLife n).length = n.toNat ∧
    (∀ i, i < n.toNat →
      ((simulate m imp Driver Team Event Compound TyreLife n).getD i (0, 0)).1 =
        truncInt TyreLife + i) := by
  have hn0 : 0 < n.toNat := by omega
  have hrows : (impute imp Driver Team Event Compound TyreLife n).1 =
      (List.range n.toNat).map fun i : ℕ =>
        ({ driver := Driver, team := Team, event := Event, compound := Compound,
           tyreLife := truncInt TyreLife + (i : ℤ),
           lapTime := (imputeCol imp .lapTime Driver Team Event Compound).1,
           sector1Time := (imputeCol imp .sector1Time Driver Team Event Compound).1,
           sector2Time := (imputeCol imp .sector2Time Driver Team Event Compound).1,
           sector3Time := (imputeCol imp .sector3Time Driver Team Event Compound).1,
           bestLapImputed := (imputeCol imp .bestLap Driver Team Event Compound).1 } :
          SimRow) := rfl
  have hlen : (impute imp Driver Team Event Compound TyreLife n).1.length = n.toNat := by
    rw [hrows, List.length_map, List.length_range]
  refine ⟨?_, ?_, ?_, ?_⟩
  · rw [hlen]
    omega
  · intro i hi
    rw [hrows, getD_map_range _ _ i default hi, getD_map_range _ _ 0 default hn0]
    exact ⟨rfl, rfl, rfl, rfl, rfl, rfl⟩
  · show (simulate m imp Driver Team Event Compound TyreLife n).length = n.toNat
    unfold simulate
    simp [hlen]
  · intro i hi
    unfold simulate
    rw [getD_zip _ _ i 0 0 (by simpa using hi) (by simpa [hlen] using hi)]
    show ((List.range n.toNat).map fun i : ℕ => truncInt TyreLife + (i : ℤ)).getD i 0 = _
    rw [getD_map_range _ _ i 0 hi]

/-- Witness for C7 at a concrete imputer and a 2-lap call. -/
theorem impute_simulate_shape_witness :
    (((impute testImputer "VER" "RBR" "Bahrain" "SOFT" 5 2).1.length : ℤ) = 2) :=
  (impute_simulate_shape (fun _ => 0) testImputer "VER" "RBR" "Bahrain" "SOFT" 5 2
    (by decide)).1

/-! ### Theorem C10 -/

/-- C10: on any predictor state that is not fitted (in particular a fresh
instance, on which neither `fit` nor `load` has established fitted state),
every one of `predict`, `evaluate`, `simulate`, `feature_importance`,
`known_drivers`, `known_events` and `known_compounds` fails with the
"unfitted model" error — so fitting is required before any of them can
succeed. -/
theorem unfitted_methods_fail (p : Predictor) (hp : p.isFitted = false) :
    (∀ src, predictE p src = .error UNFITTED_MSG) ∧
    (∀ src, evaluateE p src = .error UNFITTED_MSG) ∧
    (∀ Driver Team Event Compound TyreLife nLaps,
      simulateE p Driver Team Event Compound TyreLife nLaps = .error UNFITTED_MSG) ∧
    (∀ topN, featureImportanceE p topN = .error UNFITTED_MSG) ∧
    knownDriversE p = .error UNFITTED_MSG ∧
    knownEventsE p = .error UNFITTED_MSG ∧
    knownCompoundsE p = .error UNFITTED_MSG := by
  have hc : checkFitted p = .error UNFITTED_MSG := by
    unfold checkFitted
    rw [hp]
    rfl
  refine ⟨fun src => ?_, fun src => ?_, fun a b c d e f => ?_, fun k => ?_, ?_, ?_, ?_⟩ <;>
    simp [predictE, evaluateE, simulateE, featureImportanceE, knownDriversE,
      knownEventsE, knownCompoundsE, hc, Except.bind, Bind.bind]

/-- Witness for C10 on a freshly constructed predictor. -/
theorem unfitted_methods_fail_witness :
    knownDriversE (initPredictor fun _ => 0) = .error UNFITTED_MSG :=
  (unfitted_methods_fail (initPredictor fun _ => 0) rfl).2.2.2.2.1

end F1Sim
